import Mathlib

/-!
Shallow embedding of apps/gpui-poc/native/agora_bridge/src/heaven_agora_bridge.cpp.

The bridge wraps a vendor RTC SDK behind a small C ABI.  Vendor calls
(createAgoraService, service initialization, createRtcConnection,
registerObserver, getLocalUser, track creation, connect, publishAudio, ...)
are opaque: we model their return codes through a `VendorEnv` record and log
each invocation in a `VendorCall` trace, so that theorems can speak about
which vendor operations an adapter operation performed.  All observable
adapter state (the fields of struct Bridge in the source) is carried in a
`Bridge` record; the process-wide fallback latch
(g_fallback_runtime_active) is threaded explicitly as a `Bool`.
Filesystem path discovery (configure_runtime_paths) is environment input and
is represented by the two stored path fields it writes.
-/

/-- Event kind constant HEAVEN_AGORA_EVENT_NONE from heaven_agora_bridge.h. -/
def HEAVEN_AGORA_EVENT_NONE : Int := 0

/-- Event kind constant HEAVEN_AGORA_EVENT_BOT_SPEAKING from heaven_agora_bridge.h. -/
def HEAVEN_AGORA_EVENT_BOT_SPEAKING : Int := 1

/-- Event kind constant HEAVEN_AGORA_EVENT_BOT_SILENT from heaven_agora_bridge.h. -/
def HEAVEN_AGORA_EVENT_BOT_SILENT : Int := 2

/-- Event kind constant HEAVEN_AGORA_EVENT_USER_JOINED from heaven_agora_bridge.h. -/
def HEAVEN_AGORA_EVENT_USER_JOINED : Int := 3

/-- Event kind constant HEAVEN_AGORA_EVENT_USER_LEFT from heaven_agora_bridge.h. -/
def HEAVEN_AGORA_EVENT_USER_LEFT : Int := 4

/-- Event kind constant HEAVEN_AGORA_EVENT_ERROR from heaven_agora_bridge.h. -/
def HEAVEN_AGORA_EVENT_ERROR : Int := 5

/-- The fixed-layout event record of heaven_agora_bridge.h.  The 256-byte
message buffer is modelled as a list of byte values of length 256. -/
structure heaven_agora_event where
  kind : Int
  uid : Nat
  value : Int
  message : List Nat
deriving DecidableEq, Repr

/-- Embedding of error_name (switch on std::abs of the code). -/
def error_name (rc : Int) : String :=
  match rc.natAbs with
  | 0 => "ERR_OK"
  | 1 => "ERR_FAILED"
  | 2 => "ERR_INVALID_ARGUMENT"
  | 3 => "ERR_NOT_READY"
  | 4 => "ERR_NOT_SUPPORTED"
  | 5 => "ERR_REFUSED"
  | 7 => "ERR_NOT_INITIALIZED"
  | 8 => "ERR_INVALID_STATE"
  | 9 => "ERR_NO_PERMISSION"
  | 10 => "ERR_TIMEDOUT"
  | 22 => "ERR_RESOURCE_LIMITED"
  | 101 => "ERR_INVALID_APP_ID"
  | 109 => "ERR_TOKEN_EXPIRED"
  | 110 => "ERR_INVALID_TOKEN"
  | 77 => "ERR_FALLBACK_RESTART_REQUIRED"
  | _ => "ERR_UNKNOWN"

/-- Embedding of make_error_message: phase text, numeric and symbolic code,
plus the not-ready hint when std::abs of the code is 3. -/
def make_error_message (phase : String) (rc : Int) : String :=
  phase ++ " failed: rc=" ++ toString rc ++ " (" ++ error_name rc ++ ")" ++
    (if rc.natAbs = 3 then
      "; hint=SDK not ready. On Linux this usually means audio device init failed for this SDK bundle."
    else "")

/-- Embedding of write_message.  The destination buffer is a list of byte
values whose length is the capacity dst_size; the function is the identity
when the capacity is zero (the source also returns untouched for a null
destination).  strncpy copies source bytes up to the first 0 byte and at most
capacity minus one of them, padding the remainder of that prefix with 0, and
the source then forces a terminating 0 in the final byte. -/
def write_message (dst : List Nat) (message : List Nat) : List Nat :=
  if dst.length = 0 then dst
  else
    let n := dst.length - 1
    let copied := (message.takeWhile (fun x => x != 0)).take n
    copied ++ List.replicate (n - copied.length) 0 ++ [0]

/-- C locale isspace over the characters strtoul skips. -/
def isCSpace (c : Char) : Bool :=
  decide (c.toNat = 32 ∨ (9 ≤ c.toNat ∧ c.toNat ≤ 13))

/-- C locale isdigit. -/
def isDigitC (c : Char) : Bool :=
  decide (48 ≤ c.toNat ∧ c.toNat ≤ 57)

/-- Value of a digit run read in base 10. -/
def digitsVal (ds : List Char) : Nat :=
  ds.foldl (fun acc c => 10 * acc + (c.toNat - 48)) 0

/-- ULONG_MAX on the 64-bit targets this bridge is built for. -/
def ULONG_MAX : Nat := 2 ^ 64 - 1

/-- The value strtoul returns for a digit run read in base 10: clamped at
ULONG_MAX on overflow, negated in unsigned 64-bit arithmetic under a minus
sign. -/
def strtoulVal (neg : Bool) (raw : Nat) : Nat :=
  if raw > ULONG_MAX then ULONG_MAX
  else if neg then (2 ^ 64 - raw % 2 ^ 64) % 2 ^ 64
  else raw

/-- Result of the strtoul model: the returned value, whether any conversion
happened (the end pointer differs from the start), and the characters after
the end pointer. -/
structure StrtoulR where
  value : Nat
  converted : Bool
  rest : List Char
deriving DecidableEq, Repr

/-- Model of strtoul with base 10 as used by parse_uid: skip C whitespace,
accept one optional sign, read a digit run; on no digits the end pointer is
reset to the start; overflow beyond ULONG_MAX yields ULONG_MAX; a minus sign
negates in unsigned 64-bit arithmetic. -/
def strtoul10 (s : List Char) : StrtoulR :=
  let s1 := s.dropWhile isCSpace
  let neg : Bool :=
    match s1 with
    | c :: _ => c == '-'
    | [] => false
  let signed : Bool :=
    match s1 with
    | c :: _ => c == '-' || c == '+'
    | [] => false
  let s2 := if signed then s1.tail else s1
  let ds := s2.takeWhile isDigitC
  let rest := s2.dropWhile isDigitC
  if ds.isEmpty then ⟨0, false, s⟩
  else
    let raw := digitsVal ds
    let v :=
      if raw > ULONG_MAX then ULONG_MAX
      else if neg then (2 ^ 64 - raw % 2 ^ 64) % 2 ^ 64
      else raw
    ⟨v, true, rest⟩

/-- Embedding of parse_uid: null or empty ids give 0; otherwise strtoul with
base 10 must consume the whole id and the value must fit in 32 bits,
otherwise 0. -/
def parse_uid (user_id : Option String) : Nat :=
  match user_id with
  | none => 0
  | some s =>
    if s.data = [] then 0
    else
      let r := strtoul10 s.data
      if r.converted = false then 0
      else if r.rest ≠ [] then 0
      else if r.value > 2 ^ 32 - 1 then 0
      else r.value

/-- One vendor SDK invocation performed by the adapter.  The constructors
name the vendor entry points the source calls. -/
inductive VendorCall where
  | createAgoraService
  | svcInit (fullFeature : Bool)
  | createRtcConnection
  | registerObserver
  | getLocalUser
  | setUserRole
  | createLocalAudioTrack
  | trackSetEnabled (enabled : Bool)
  | connect (token channel uid : String)
  | publishAudio
  | unregisterObserver
  | unpublishAudio
  | disconnect
  | serviceRelease
deriving DecidableEq, Repr

/-- Return codes and null-pointer outcomes of the opaque vendor calls: the
environment a given adapter operation runs against.  Defaults describe the
all-success environment. -/
structure VendorEnv where
  createService_ok : Bool := true
  init_full_rc : Int := 0
  init_fallback_rc : Int := 0
  createConn_ok : Bool := true
  registerObserver_rc : Int := 0
  getLocalUser_ok : Bool := true
  createTrack_ok : Bool := true
  setEnabled_rc : Int := 0
  connect_rc : Int := 0
  publish_rc : Int := 0
deriving DecidableEq, Repr

/-- The adapter state: the fields of struct Bridge in the source.  Vendor
object pointers are modelled by their null test (service, connection,
local_user, local_audio_track); the std::unordered_set of remote user ids is
a duplicate-free list; the std::deque of events is a list with head at the
front. -/
structure Bridge where
  app_id : String
  area_cn_only : Bool := false
  mic_enabled : Bool := true
  audio_published : Bool := false
  active_channel : String := ""
  active_token : String := ""
  active_uid : String := ""
  service : Bool := false
  connection : Bool := false
  local_user : Bool := false
  local_audio_track : Bool := false
  events : List heaven_agora_event := []
  bot_speaking : Bool := false
  remote_users : List String := []
  last_error : String := ""
  log_file_path : String := ""
  sdk_data_dir : String := ""
  audio_processor_enabled : Bool := true
  audio_device_enabled : Bool := true
  teardown_unsafe : Bool := false
deriving DecidableEq, Repr

/-- Embedding of Bridge::set_last_error (the stderr print is I/O and not
modelled). -/
def Bridge.set_last_error (b : Bridge) (message : String) : Bridge :=
  { b with last_error := message }

/-- Embedding of Bridge::clear_last_error. -/
def Bridge.clear_last_error (b : Bridge) : Bridge :=
  { b with last_error := "" }

/-- Embedding of Bridge::get_last_error. -/
def Bridge.get_last_error (b : Bridge) : String :=
  b.last_error

/-- Result record for adapter operations that can touch the process latch:
status code, new bridge state, new latch value, vendor call trace. -/
structure OpResult where
  rc : Int
  b : Bridge
  g : Bool
  tr : List VendorCall
deriving DecidableEq, Repr

/-- Result record for adapter operations that do not touch the latch. -/
structure CallR where
  rc : Int
  b : Bridge
  tr : List VendorCall
deriving DecidableEq, Repr

/-- Result record for Bridge::pop_event. -/
structure PopR where
  rc : Int
  ev : Option heaven_agora_event
  b : Bridge
deriving DecidableEq, Repr

/-- Embedding of Bridge::shutdown.  In teardown-unsafe (fallback) mode it is
a pure in-memory reset with no vendor call; otherwise it unregisters the
observer, unpublishes a published track, disconnects, and releases track,
user, connection and service. -/
def Bridge.shutdown (b : Bridge) : Bridge × List VendorCall :=
  if b.teardown_unsafe then
    ({ b with remote_users := [], bot_speaking := false,
              active_channel := "", active_token := "", active_uid := "" }, [])
  else
    let tr :=
      (if b.connection then [VendorCall.unregisterObserver] else []) ++
      (if b.local_user && b.local_audio_track && b.audio_published then
        [VendorCall.unpublishAudio] else []) ++
      (if b.connection then [VendorCall.disconnect] else []) ++
      (if b.service then [VendorCall.serviceRelease] else [])
    ({ b with local_audio_track := false, local_user := false,
              audio_published := false, connection := false, service := false,
              remote_users := [], bot_speaking := false,
              active_channel := "", active_token := "", active_uid := "" }, tr)

/-- The diagnostic composed when both service init attempts fail: error
text plus app id length, area, feature flags and runtime paths. -/
def init_fail_message (b : Bridge) (rc : Int) : String :=
  make_error_message "initialize" rc ++
  "; app_id_len=" ++ toString b.app_id.length ++
  "; area=" ++ (if b.area_cn_only then "CN" else "GLOB") ++
  "; config=(audio_processor=" ++ (if b.audio_processor_enabled then "1" else "0") ++
  ",audio_device=" ++ (if b.audio_device_enabled then "1" else "0") ++ ")" ++
  "; log_file=" ++ b.log_file_path ++
  "; data_dir=" ++ b.sdk_data_dir

/-- The two service initialization attempts inside Bridge::initialize_if_needed:
a full-feature attempt, and — exactly when that attempt returns a nonzero code
whose std::abs is 3 — one retry with the audio processor disabled.  A retry
success enters fallback mode, marks the bridge teardown-unsafe and sets the
process-wide latch.  Returns code, bridge, latch and trace. -/
def init_attempts (env : VendorEnv) (b : Bridge) (g : Bool) :
    Int × Bridge × Bool × List VendorCall :=
  if env.init_full_rc ≠ 0 ∧ env.init_full_rc.natAbs = 3 then
    if env.init_fallback_rc = 0 then
      (0, { b with audio_processor_enabled := false, audio_device_enabled := true,
                   teardown_unsafe := true }, true,
       [VendorCall.svcInit true, VendorCall.svcInit false])
    else
      (env.init_fallback_rc, b, g, [VendorCall.svcInit true, VendorCall.svcInit false])
  else
    (env.init_full_rc, b, g, [VendorCall.svcInit true])

/-- Embedding of Bridge::initialize_if_needed (named init_if_needed here):
no-op once service exists; fails on an empty app id or a null service; runs
the initialization attempts; on failure stores the composed diagnostic and
releases the service; on success creates the connection, registers the
observer, fetches the local user, and — only with the audio processor
enabled — sets the role, creates the local audio track and applies the
stored microphone intent.  Every intermediate failure stores a diagnostic
and runs shutdown. -/
def Bridge.init_if_needed (env : VendorEnv) (b : Bridge) (g : Bool) : OpResult :=
  if b.service then ⟨0, b, g, []⟩
  else if b.app_id = "" then
    ⟨-1, b.set_last_error "initialize failed: missing Agora app id", g, []⟩
  else if env.createService_ok = false then
    ⟨-2, b.set_last_error "initialize failed: createAgoraService returned null", g,
     [VendorCall.createAgoraService]⟩
  else
    let b1 : Bridge :=
      { b with service := true, last_error := "",
               audio_processor_enabled := true, audio_device_enabled := true,
               teardown_unsafe := false }
    let a := init_attempts env b1 g
    let rc := a.1
    let b2 := a.2.1
    let g2 := a.2.2.1
    let tr := VendorCall.createAgoraService :: a.2.2.2
    if rc ≠ 0 then
      ⟨rc, { b2 with last_error := init_fail_message b2 rc, service := false }, g2,
       tr ++ [VendorCall.serviceRelease]⟩
    else if env.createConn_ok = false then
      let b3 := b2.set_last_error "createRtcConnection failed: service->createRtcConnection returned null"
      let sd := b3.shutdown
      ⟨-3, sd.1, g2, tr ++ [VendorCall.createRtcConnection] ++ sd.2⟩
    else
      let b3 : Bridge := { b2 with connection := true }
      let tr := tr ++ [VendorCall.createRtcConnection, VendorCall.registerObserver]
      if env.registerObserver_rc ≠ 0 then
        let b4 := b3.set_last_error (make_error_message "registerObserver" env.registerObserver_rc)
        let sd := b4.shutdown
        ⟨env.registerObserver_rc, sd.1, g2, tr ++ sd.2⟩
      else
        let tr := tr ++ [VendorCall.getLocalUser]
        if env.getLocalUser_ok = false then
          let b4 := b3.set_last_error "getLocalUser failed: returned null"
          let sd := b4.shutdown
          ⟨-4, sd.1, g2, tr ++ sd.2⟩
        else
          let b4 : Bridge := { b3 with local_user := true }
          if b4.audio_processor_enabled then
            let tr := tr ++ [VendorCall.setUserRole]
            if env.createTrack_ok = false then
              let b5 := b4.set_last_error "createLocalAudioTrack failed: returned null"
              let sd := b5.shutdown
              ⟨-5, sd.1, g2, tr ++ [VendorCall.createLocalAudioTrack] ++ sd.2⟩
            else
              let b5 : Bridge := { b4 with local_audio_track := true }
              let tr := tr ++ [VendorCall.createLocalAudioTrack,
                               VendorCall.trackSetEnabled b5.mic_enabled]
              if env.setEnabled_rc ≠ 0 then
                let b6 := b5.set_last_error (make_error_message "localAudioTrack.setEnabled" env.setEnabled_rc)
                let sd := b6.shutdown
                ⟨env.setEnabled_rc, sd.1, g2, tr ++ sd.2⟩
              else
                ⟨0, b5.clear_last_error, g2, tr⟩
          else
            ⟨0, ({ b4 with local_audio_track := false }).clear_last_error, g2, tr⟩

/-- Embedding of Bridge::join: reject a null or empty channel, initialize if
needed, store channel, token and the uid formatted as decimal text, connect,
and publish the local audio track when a local user and track exist and
nothing is published yet; a publish failure stores a diagnostic and runs
shutdown. -/
def Bridge.join (env : VendorEnv) (b : Bridge) (g : Bool)
    (channel token : Option String) (uid : Nat) : OpResult :=
  match channel with
  | none => ⟨-1, b.set_last_error "join failed: missing channel", g, []⟩
  | some ch =>
    if ch = "" then ⟨-1, b.set_last_error "join failed: missing channel", g, []⟩
    else
      let r := b.init_if_needed env g
      if r.rc ≠ 0 then r
      else
        let b1 : Bridge :=
          { r.b with active_channel := ch, active_token := token.getD "",
                     active_uid := toString uid }
        let tr := r.tr ++ [VendorCall.connect b1.active_token b1.active_channel b1.active_uid]
        if env.connect_rc ≠ 0 then
          ⟨env.connect_rc, b1.set_last_error (make_error_message "connect" env.connect_rc), r.g, tr⟩
        else
          if b1.local_user && b1.local_audio_track && !b1.audio_published then
            let tr := tr ++ [VendorCall.publishAudio]
            if env.publish_rc ≠ 0 then
              let b2 := b1.set_last_error (make_error_message "publishAudio" env.publish_rc)
              let sd := b2.shutdown
              ⟨env.publish_rc, sd.1, r.g, tr ++ sd.2⟩
            else
              ⟨0, ({ b1 with audio_published := true }).clear_last_error, r.g, tr⟩
          else
            ⟨0, b1.clear_last_error, r.g, tr⟩

/-- Embedding of Bridge::leave: fail with -2 when no connection exists; in
teardown-unsafe mode clear the diagnostic and return success with no vendor
call and no other state change; otherwise run shutdown. -/
def Bridge.leave (b : Bridge) : CallR :=
  if b.connection = false then
    ⟨-2, b.set_last_error "leave failed: no active connection", []⟩
  else if b.teardown_unsafe then
    ⟨0, b.clear_last_error, []⟩
  else
    let sd := b.shutdown
    ⟨0, sd.1.clear_last_error, sd.2⟩

/-- Embedding of Bridge::set_mic_enabled: store the intent unconditionally;
in fallback mode return success while recording an informational note; with
no local track fail with -2; otherwise forward to the vendor track. -/
def Bridge.set_mic_enabled (env : VendorEnv) (b : Bridge) (enabled : Bool) : CallR :=
  let b1 : Bridge := { b with mic_enabled := enabled }
  if b1.audio_processor_enabled = false then
    ⟨0, b1.set_last_error "set_mic_enabled ignored: audio processor fallback mode is active", []⟩
  else if b1.local_audio_track = false then
    ⟨-2, b1.set_last_error "set_mic_enabled failed: local audio track is not initialized", []⟩
  else if env.setEnabled_rc ≠ 0 then
    ⟨env.setEnabled_rc,
     b1.set_last_error (make_error_message "set_mic_enabled" env.setEnabled_rc),
     [VendorCall.trackSetEnabled enabled]⟩
  else
    ⟨0, b1.clear_last_error, [VendorCall.trackSetEnabled enabled]⟩

/-- Embedding of Bridge::set_area_cn_only: refuse with -3 once the service
exists, otherwise store the preference. -/
def Bridge.set_area_cn_only (b : Bridge) (enabled : Bool) : CallR :=
  if b.service then
    ⟨-3, b.set_last_error "set_area_cn failed: engine is already initialized", []⟩
  else
    ⟨0, ({ b with area_cn_only := enabled }).clear_last_error, []⟩

/-- Construction of the event record pushed by Bridge::push_event: the
zero-initialized 256-byte message buffer receives the message through
write_message. -/
def mkEvent (kind : Int) (uid : Nat) (value : Int) (message : List Nat) : heaven_agora_event :=
  ⟨kind, uid, value, write_message (List.replicate 256 0) message⟩

/-- Embedding of Bridge::push_event: append the record at the tail of the
deque. -/
def Bridge.push_event (b : Bridge) (kind : Int) (uid : Nat) (value : Int)
    (message : List Nat) : Bridge :=
  { b with events := b.events ++ [mkEvent kind uid value message] }

/-- Embedding of Bridge::pop_event: a null output pointer gives -1; an empty
deque gives 1 with no state change; otherwise remove and return the head. -/
def Bridge.pop_event (b : Bridge) (out_ok : Bool) : PopR :=
  if out_ok = false then ⟨-1, none, b⟩
  else
    match b.events with
    | [] => ⟨1, none, b⟩
    | e :: rest => ⟨0, some e, { b with events := rest }⟩

/-- Embedding of Bridge::onUserJoined: insert the id (null becomes the empty
string) into the remote set; when newly inserted while not speaking, flip
bot_speaking on; push the UserJoined event and then, on the flip, one
BotSpeaking event. -/
def Bridge.onUserJoined (b : Bridge) (userId : Option String) : Bridge :=
  let uid := parse_uid userId
  let key := userId.getD ""
  if key ∈ b.remote_users then
    b.push_event HEAVEN_AGORA_EVENT_USER_JOINED uid 0 []
  else
    let b1 : Bridge := { b with remote_users := key :: b.remote_users }
    if b.bot_speaking then
      b1.push_event HEAVEN_AGORA_EVENT_USER_JOINED uid 0 []
    else
      (({ b1 with bot_speaking := true }).push_event
        HEAVEN_AGORA_EVENT_USER_JOINED uid 0 []).push_event
        HEAVEN_AGORA_EVENT_BOT_SPEAKING 0 0 []

/-- Embedding of Bridge::onUserLeft: erase the id from the remote set; when
the set becomes empty while speaking, flip bot_speaking off; push the
UserLeft event (value is the vendor reason) and then, on the flip, one
BotSilent event. -/
def Bridge.onUserLeft (b : Bridge) (userId : Option String) (reason : Int) : Bridge :=
  let uid := parse_uid userId
  let key := userId.getD ""
  let b1 : Bridge := { b with remote_users := b.remote_users.filter (fun u => u != key) }
  if b1.remote_users.isEmpty && b.bot_speaking then
    (({ b1 with bot_speaking := false }).push_event
      HEAVEN_AGORA_EVENT_USER_LEFT uid reason []).push_event
      HEAVEN_AGORA_EVENT_BOT_SILENT 0 0 []
  else
    b1.push_event HEAVEN_AGORA_EVENT_USER_LEFT uid reason []

/-- Embedding of heaven_agora_create: null app id or output slot gives -1;
a set process latch gives -77 and no handle; otherwise a fresh bridge in
default state holding the app id. -/
def heaven_agora_create (app_id : Option String) (out_slot_ok : Bool) (g : Bool) :
    Int × Option Bridge :=
  match app_id, out_slot_ok with
  | none, _ => (-1, none)
  | some _, false => (-1, none)
  | some a, true =>
    if g then (-77, none)
    else (0, some { app_id := a })

/-- Byte view of a stored diagnostic string (the adapter only stores ASCII
diagnostics). -/
def strBytes (s : String) : List Nat :=
  s.data.map Char.toNat

/-- Embedding of heaven_agora_last_error: null handle, null buffer or zero
capacity give -1 with the buffer untouched; otherwise the stored diagnostic
is written through write_message and the status is 0. -/
def heaven_agora_last_error (b : Option Bridge) (buf : List Nat) : Int × List Nat :=
  if buf.length = 0 then (-1, buf)
  else
    match b with
    | none => (-1, buf)
    | some br => (0, write_message buf (strBytes br.get_last_error))

/-- Number of publishAudio vendor calls in a trace. -/
def countPub : List VendorCall → Nat
  | [] => 0
  | VendorCall.publishAudio :: t => countPub t + 1
  | _ :: t => countPub t

/-- Arguments of one push: kind, uid, value, message bytes. -/
abbrev PushA := Int × Nat × Int × List Nat

/-- The event a given push appends. -/
def evOf (p : PushA) : heaven_agora_event :=
  mkEvent p.1 p.2.1 p.2.2.1 p.2.2.2

/-- Fold a sequence of pushes over the bridge. -/
def pushAll (b : Bridge) (ps : List PushA) : Bridge :=
  ps.foldl (fun acc p => acc.push_event p.1 p.2.1 p.2.2.1 p.2.2.2) b

/-- Pop n times with a valid output slot, collecting the returned events. -/
def popN : Nat → Bridge → List heaven_agora_event × Bridge
  | 0, b => ([], b)
  | n + 1, b =>
    let r := b.pop_event true
    match r.ev with
    | some e =>
      let rest := popN n r.b
      (e :: rest.1, rest.2)
    | none => popN n r.b

/-- The participant callback sequence of claim C3: join A, join B, leave A,
leave B, with vendor reasons rA and rB on the leaves. -/
def joinLeaveSeq (b : Bridge) (A B : String) (rA rB : Int) : Bridge :=
  ((((b.onUserJoined (some A)).onUserJoined (some B)).onUserLeft (some A) rA).onUserLeft
    (some B) rB)

/-! ## Helper lemmas -/

/-- A string append with a nonempty left part is nonempty. -/
theorem str_append_ne_empty (s t : String) (h : s ≠ "") : s ++ t ≠ "" := by
  intro he
  apply h
  have hd : (s ++ t).data = ([] : List Char) := by rw [he]
  rw [String.data_append] at hd
  rcases List.append_eq_nil.mp hd with ⟨hs, -⟩
  exact String.ext hs

/-- Diagnostics composed by make_error_message are nonempty. -/
theorem make_error_message_ne (phase : String) (rc : Int) (h : phase ≠ "") :
    make_error_message phase rc ≠ "" := by
  unfold make_error_message
  apply str_append_ne_empty
  apply str_append_ne_empty
  apply str_append_ne_empty
  apply str_append_ne_empty
  apply str_append_ne_empty
  apply str_append_ne_empty
  exact h

/-- The combined initialization failure diagnostic is nonempty. -/
theorem init_fail_message_ne (b : Bridge) (rc : Int) : init_fail_message b rc ≠ "" := by
  unfold init_fail_message
  apply str_append_ne_empty
  apply str_append_ne_empty
  apply str_append_ne_empty
  apply str_append_ne_empty
  apply str_append_ne_empty
  apply str_append_ne_empty
  apply str_append_ne_empty
  apply str_append_ne_empty
  apply str_append_ne_empty
  apply str_append_ne_empty
  apply str_append_ne_empty
  apply str_append_ne_empty
  apply str_append_ne_empty
  exact make_error_message_ne _ _ (by decide)

/-- shutdown never touches the stored diagnostic. -/
theorem shutdown_last_error (b : Bridge) : (b.shutdown).1.last_error = b.last_error := by
  unfold Bridge.shutdown
  split <;> rfl

/-- takeWhile walks through a prefix whose members all satisfy the predicate. -/
theorem takeWhile_append_of_all {α : Type} (p : α → Bool) (as bs : List α)
    (h : ∀ a ∈ as, p a = true) :
    (as ++ bs).takeWhile p = as ++ bs.takeWhile p := by
  induction as with
  | nil => simp
  | cons x t ih => simp_all [List.takeWhile_cons]

/-- dropWhile walks through a prefix whose members all satisfy the predicate. -/
theorem dropWhile_append_of_all {α : Type} (p : α → Bool) (as bs : List α)
    (h : ∀ a ∈ as, p a = true) :
    (as ++ bs).dropWhile p = bs.dropWhile p := by
  induction as with
  | nil => simp
  | cons x t ih => simp_all [List.dropWhile_cons]

/-! ## C7: region preference -/

/-- C7: set_region_preference (set_area_cn_only) called after the vendor
engine has been created returns the state error -3 and leaves the stored
region preference unchanged; called before engine creation it stores the
preference and returns success 0. -/
theorem set_area_state_guard (b : Bridge) (e : Bool) :
    (b.service = true → (b.set_area_cn_only e).rc = -3 ∧
      (b.set_area_cn_only e).b.area_cn_only = b.area_cn_only) ∧
    (b.service = false → (b.set_area_cn_only e).rc = 0 ∧
      (b.set_area_cn_only e).b.area_cn_only = e) := by
  unfold Bridge.set_area_cn_only
  by_cases hs : b.service <;>
    simp [hs, Bridge.set_last_error, Bridge.clear_last_error]

/-- C7 witness: a concrete bridge whose service exists refuses the region
toggle with -3 and keeps the stored preference. -/
theorem set_area_state_guard_witness :
    (Bridge.set_area_cn_only { app_id := "a", service := true } true).rc = -3 ∧
    (Bridge.set_area_cn_only { app_id := "a", service := true } true).b.area_cn_only = false := by
  exact (set_area_state_guard { app_id := "a", service := true } true).1 rfl

/-! ## C5: leave in teardown-unsafe mode -/

/-- C5 counterexample: in teardown-unsafe mode, leave returns success but
does NOT perform the state-only reset the claim describes: the participant
set, the speaking flag and the stored channel are all left untouched. -/
theorem leave_teardown_no_reset_cx :
    (let b : Bridge := { app_id := "a", active_channel := "room", active_token := "tok", active_uid := "9", connection := true, teardown_unsafe := true, remote_users := ["7"], bot_speaking := true };
     (Bridge.leave b).rc = 0 ∧
     (Bridge.leave b).b.active_channel = "room" ∧
     (Bridge.leave b).b.active_token = "tok" ∧
     (Bridge.leave b).b.active_uid = "9" ∧
     (Bridge.leave b).b.remote_users = ["7"] ∧
     (Bridge.leave b).b.bot_speaking = true) := by
  refine ⟨rfl, rfl, rfl, rfl, rfl, rfl⟩

/-- C5 amended: when the handle is teardown-unsafe, leave returns success
without invoking any vendor engine operation and changes nothing except
clearing the stored diagnostic; the state-only reset of participant set,
speaking flag and channel, token, uid is performed by shutdown, which in
teardown-unsafe mode also invokes no vendor operation. -/
theorem leave_teardown_amended (b : Bridge)
    (h1 : b.teardown_unsafe = true) (h2 : b.connection = true) :
    b.leave = ⟨0, { b with last_error := "" }, []⟩ ∧
    b.shutdown = ({ b with remote_users := [], bot_speaking := false, active_channel := "", active_token := "", active_uid := "" }, []) := by
  unfold Bridge.leave Bridge.shutdown
  simp [h1, h2, Bridge.clear_last_error]

/-- C5 amended witness at a concrete teardown-unsafe bridge. -/
theorem leave_teardown_amended_witness :
    (let b : Bridge := { app_id := "a", active_channel := "room", connection := true, teardown_unsafe := true, remote_users := ["7"], bot_speaking := true };
     b.leave = ⟨0, { b with last_error := "" }, []⟩ ∧
     b.shutdown = ({ b with remote_users := [], bot_speaking := false, active_channel := "", active_token := "", active_uid := "" }, [])) := by
  exact leave_teardown_amended _ rfl rfl

/-! ## C2: event queue FIFO -/

/-- Pushing a sequence appends the corresponding event records in order. -/
theorem pushAll_events (ps : List PushA) (b : Bridge) :
    (pushAll b ps).events = b.events ++ ps.map evOf := by
  induction ps generalizing b with
  | nil => simp [pushAll]
  | cons p t ih =>
    show (pushAll (b.push_event p.1 p.2.1 p.2.2.1 p.2.2.2) t).events = _
    rw [ih]
    simp [Bridge.push_event, evOf]

/-- Popping m times from a bridge with at least m queued events returns the
first m events in order and drops exactly them. -/
theorem popN_spec (m : Nat) (b : Bridge) (hm : m ≤ b.events.length) :
    (popN m b).1 = b.events.take m ∧
    (popN m b).2 = { b with events := b.events.drop m } := by
  induction m generalizing b with
  | zero => simp [popN]
  | succ n ih =>
    cases he : b.events with
    | nil =>
      rw [he] at hm
      simp at hm
    | cons eh et =>
      have hpop : b.pop_event true = ⟨0, some eh, { b with events := et }⟩ := by
        unfold Bridge.pop_event
        rw [he]
        simp
      have hlen : n ≤ et.length := by
        rw [he] at hm
        simpa using hm
      have ih' := ih { b with events := et } (by simpa using hlen)
      constructor
      · show (popN (n + 1) b).1 = _
        simp [popN, hpop, he, ih'.1]
      · show (popN (n + 1) b).2 = _
        simp [popN, hpop, he, ih'.2]

/-- C2: pushes followed by at most as many pops form a FIFO: the pops return
exactly the pushed events in push order with none duplicated or lost, the
queue keeps exactly the not-yet-popped suffix, and a pop on the empty queue
returns status 1 leaving the bridge unchanged. -/
theorem event_queue_fifo (b0 : Bridge) (ps : List PushA) (m : Nat)
    (h0 : b0.events = []) (hm : m ≤ ps.length) :
    (popN m (pushAll b0 ps)).1 = (ps.map evOf).take m ∧
    (popN m (pushAll b0 ps)).2.events = (ps.map evOf).drop m ∧
    b0.pop_event true = ⟨1, none, b0⟩ := by
  have hev : (pushAll b0 ps).events = ps.map evOf := by
    rw [pushAll_events, h0]
    simp
  have hs := popN_spec m (pushAll b0 ps) (by rw [hev]; simpa using hm)
  refine ⟨?_, ?_, ?_⟩
  · rw [hs.1, hev]
  · rw [hs.2]
    simp [hev]
  · unfold Bridge.pop_event
    rw [h0]
    simp

/-- C2 witness: two concrete pushes then one pop. -/
theorem event_queue_fifo_witness :
    (popN 1 (pushAll { app_id := "a" } [((5 : Int), 1, 2, [104]), ((3 : Int), 9, 0, [])])).1 = (([((5 : Int), 1, 2, [104]), ((3 : Int), 9, 0, [])] : List PushA).map evOf).take 1 ∧
    (popN 1 (pushAll { app_id := "a" } [((5 : Int), 1, 2, [104]), ((3 : Int), 9, 0, [])])).2.events = (([((5 : Int), 1, 2, [104]), ((3 : Int), 9, 0, [])] : List PushA).map evOf).drop 1 ∧
    Bridge.pop_event { app_id := "a" } true = ⟨1, none, { app_id := "a" }⟩ := by
  exact event_queue_fifo { app_id := "a" } [((5 : Int), 1, 2, [104]), ((3 : Int), 9, 0, [])] 1 rfl (by decide)

/-! ## C8: last_error buffer write -/

/-- A zero-padded tail stops takeWhile immediately. -/
theorem takeWhile_zeros (k : Nat) :
    (List.replicate k 0 ++ [0]).takeWhile (fun x => x != 0) = ([] : List Nat) := by
  cases k <;> simp [List.replicate_succ, List.takeWhile_cons]

/-- Core write_message guarantee: the buffer keeps its capacity, the stored
C string is the message truncated to capacity minus one, and a 0 terminator
is present. -/
theorem write_message_spec (dst msg : List Nat) (hd : dst ≠ [])
    (hnz : ∀ x ∈ msg, x ≠ 0) :
    (write_message dst msg).length = dst.length ∧
    (write_message dst msg).takeWhile (fun x => x != 0) = msg.take (dst.length - 1) ∧
    (0 : Nat) ∈ write_message dst msg := by
  have hlen : ¬ dst.length = 0 := by simpa [List.length_eq_zero] using hd
  have htw : msg.takeWhile (fun x => x != 0) = msg := by
    have hall : ∀ a ∈ msg, (a != 0) = true := by
      intro a ha
      simpa [bne_iff_ne] using hnz a ha
    simpa using takeWhile_append_of_all (fun x => x != 0) msg [] hall
  have hcall : ∀ a ∈ msg.take (dst.length - 1), (a != 0) = true := by
    intro a ha
    have : a ∈ msg := List.take_subset _ _ ha
    simpa [bne_iff_ne] using hnz a this
  unfold write_message
  rw [if_neg hlen, htw]
  refine ⟨?_, ?_, ?_⟩
  · have h1 : (msg.take (dst.length - 1)).length ≤ dst.length - 1 := by
      simp [List.length_take]
    simp [List.length_append, List.length_replicate, List.length_take]
    omega
  · rw [List.append_assoc, takeWhile_append_of_all _ _ _ hcall, takeWhile_zeros]
    simp
  · simp

/-- C8: for every nonzero capacity and stored diagnostic (diagnostics hold
no interior 0 byte), heaven_agora_last_error returns 0 and writes a
0-terminated string equal to the diagnostic truncated to capacity minus one
bytes — the full diagnostic when it fits — never exceeding the capacity. -/
theorem last_error_buffer_truncation (br : Bridge) (buf : List Nat)
    (hbuf : buf ≠ []) (hnz : ∀ x ∈ strBytes br.last_error, x ≠ 0) :
    (heaven_agora_last_error (some br) buf).1 = 0 ∧
    (heaven_agora_last_error (some br) buf).2.length = buf.length ∧
    (heaven_agora_last_error (some br) buf).2.takeWhile (fun x => x != 0) =
      (strBytes br.last_error).take (buf.length - 1) ∧
    ((strBytes br.last_error).length ≤ buf.length - 1 →
      (heaven_agora_last_error (some br) buf).2.takeWhile (fun x => x != 0) =
        strBytes br.last_error) ∧
    (0 : Nat) ∈ (heaven_agora_last_error (some br) buf).2 := by
  have hlen : ¬ buf.length = 0 := by simpa [List.length_eq_zero] using hbuf
  have hw := write_message_spec buf (strBytes br.last_error) hbuf hnz
  unfold heaven_agora_last_error Bridge.get_last_error
  rw [if_neg hlen]
  refine ⟨rfl, hw.1, hw.2.1, ?_, hw.2.2⟩
  intro hfit
  rw [hw.2.1]
  exact List.take_of_length_le hfit

/-- C8 witness: the diagnostic boom written into a capacity 8 buffer. -/
theorem last_error_buffer_truncation_witness :
    (heaven_agora_last_error (some { app_id := "a", last_error := "boom" }) [7, 7, 7, 7, 7, 7, 7, 7]).1 = 0 ∧
    (heaven_agora_last_error (some { app_id := "a", last_error := "boom" }) [7, 7, 7, 7, 7, 7, 7, 7]).2.length = ([7, 7, 7, 7, 7, 7, 7, 7] : List Nat).length ∧
    (heaven_agora_last_error (some { app_id := "a", last_error := "boom" }) [7, 7, 7, 7, 7, 7, 7, 7]).2.takeWhile (fun x => x != 0) =
      (strBytes (Bridge.last_error { app_id := "a", last_error := "boom" })).take (([7, 7, 7, 7, 7, 7, 7, 7] : List Nat).length - 1) ∧
    ((strBytes (Bridge.last_error { app_id := "a", last_error := "boom" })).length ≤ ([7, 7, 7, 7, 7, 7, 7, 7] : List Nat).length - 1 →
      (heaven_agora_last_error (some { app_id := "a", last_error := "boom" }) [7, 7, 7, 7, 7, 7, 7, 7]).2.takeWhile (fun x => x != 0) =
        strBytes (Bridge.last_error { app_id := "a", last_error := "boom" })) ∧
    (0 : Nat) ∈ (heaven_agora_last_error (some { app_id := "a", last_error := "boom" }) [7, 7, 7, 7, 7, 7, 7, 7]).2 := by
  exact last_error_buffer_truncation { app_id := "a", last_error := "boom" } [7, 7, 7, 7, 7, 7, 7, 7] (by decide) (by decide)

/-! ## C3: edge-triggered speaking signal -/

/-- C3: from an empty participant set with the speaking flag down, the
callback sequence join A, join B, leave A, leave B (A and B distinct, no
volume indication available) appends exactly the events UserJoined A,
BotSpeaking, UserJoined B, UserLeft A, UserLeft B, BotSilent: one BotSpeaking
at join A, one BotSilent at leave B, and no speaking or silent event at
join B or leave A. -/
theorem presence_edge_trigger (b0 : Bridge) (A B : String) (rA rB : Int)
    (hAB : A ≠ B) (hre : b0.remote_users = []) (hsp : b0.bot_speaking = false) :
    (joinLeaveSeq b0 A B rA rB).events =
      b0.events ++
        [mkEvent HEAVEN_AGORA_EVENT_USER_JOINED (parse_uid (some A)) 0 [],
         mkEvent HEAVEN_AGORA_EVENT_BOT_SPEAKING 0 0 [],
         mkEvent HEAVEN_AGORA_EVENT_USER_JOINED (parse_uid (some B)) 0 [],
         mkEvent HEAVEN_AGORA_EVENT_USER_LEFT (parse_uid (some A)) rA [],
         mkEvent HEAVEN_AGORA_EVENT_USER_LEFT (parse_uid (some B)) rB [],
         mkEvent HEAVEN_AGORA_EVENT_BOT_SILENT 0 0 []] ∧
    (joinLeaveSeq b0 A B rA rB).bot_speaking = false ∧
    (joinLeaveSeq b0 A B rA rB).remote_users = [] := by
  have hBA : B ≠ A := fun h => hAB h.symm
  unfold joinLeaveSeq Bridge.onUserJoined Bridge.onUserLeft
  simp [hre, hsp, hAB, hBA, Bridge.push_event, List.filter_cons, bne_iff_ne]

/-- C3 witness at concrete participants 1 and 2. -/
theorem presence_edge_trigger_witness :
    (joinLeaveSeq { app_id := "a" } "1" "2" 0 1).events =
      Bridge.events { app_id := "a" } ++
        [mkEvent HEAVEN_AGORA_EVENT_USER_JOINED (parse_uid (some "1")) 0 [],
         mkEvent HEAVEN_AGORA_EVENT_BOT_SPEAKING 0 0 [],
         mkEvent HEAVEN_AGORA_EVENT_USER_JOINED (parse_uid (some "2")) 0 [],
         mkEvent HEAVEN_AGORA_EVENT_USER_LEFT (parse_uid (some "1")) 0 [],
         mkEvent HEAVEN_AGORA_EVENT_USER_LEFT (parse_uid (some "2")) 1 [],
         mkEvent HEAVEN_AGORA_EVENT_BOT_SILENT 0 0 []] ∧
    (joinLeaveSeq { app_id := "a" } "1" "2" 0 1).bot_speaking = false ∧
    (joinLeaveSeq { app_id := "a" } "1" "2" 0 1).remote_users = [] := by
  exact presence_edge_trigger { app_id := "a" } "1" "2" 0 1 (by decide) rfl rfl

/-! ## C10: uid parsing -/

/-- Facts about a C digit character. -/
theorem digit_char_facts (d : Char) (h : isDigitC d = true) :
    isCSpace d = false ∧ (d == '-') = false ∧ (d == '+') = false := by
  have hdn : 48 ≤ d.toNat ∧ d.toNat ≤ 57 := by simpa [isDigitC] using h
  refine ⟨?_, ?_, ?_⟩
  · simp only [isCSpace, decide_eq_false_iff_not]
    omega
  · rw [beq_eq_false_iff_ne]
    intro he
    rcases hdn with ⟨h48, h57⟩
    rw [he] at h48
    have h45 : ('-').toNat = 45 := rfl
    omega
  · rw [beq_eq_false_iff_ne]
    intro he
    rcases hdn with ⟨h48, h57⟩
    rw [he] at h48
    have h43 : ('+').toNat = 43 := rfl
    omega

/-- C10 counterexample: the id "+5" contains a non-digit character, so the
claim requires uid 0, but parse_uid accepts the sign the way strtoul does
and yields 5. -/
theorem parse_uid_sign_cx : parse_uid (some "+5") = 5 ∧ parse_uid (some "+5") ≠ 0 := by
  constructor <;> decide

/-- strtoul over an arbitrary input split as a C whitespace prefix, one
optional sign, a maximal (possibly empty) digit run, and a non-digit
remainder: no digits means no conversion with the end pointer reset to the
start; otherwise conversion happens, the end pointer sits at the remainder,
and the value is the sign-wrapped, ULONG_MAX-clamped digit run value. -/
theorem strtoul10_decomp (ws sgn ds rest : List Char)
    (hws : ∀ c ∈ ws, isCSpace c = true)
    (hsgn : sgn = [] ∨ sgn = ['+'] ∨ sgn = ['-'])
    (hds : ∀ c ∈ ds, isDigitC c = true)
    (hrest : ∀ c t, rest = c :: t → isDigitC c = false)
    (hmax : sgn = [] → ds = [] → ∀ c t, rest = c :: t →
      isCSpace c = false ∧ (c == '+') = false ∧ (c == '-') = false) :
    strtoul10 (ws ++ (sgn ++ (ds ++ rest))) =
      if ds = [] then ⟨0, false, ws ++ (sgn ++ (ds ++ rest))⟩
      else ⟨strtoulVal (sgn == ['-']) (digitsVal ds), true, rest⟩ := by
  have hdw0 : (ws ++ (sgn ++ (ds ++ rest))).dropWhile isCSpace
      = (sgn ++ (ds ++ rest)).dropWhile isCSpace :=
    dropWhile_append_of_all _ _ _ hws
  have hrtw : rest.takeWhile isDigitC = [] := by
    cases rest with
    | nil => rfl
    | cons c t => simp [List.takeWhile_cons, hrest c t rfl]
  have hrdw : rest.dropWhile isDigitC = rest := by
    cases rest with
    | nil => rfl
    | cons c t => simp [List.dropWhile_cons, hrest c t rfl]
  have hdtw : (ds ++ rest).takeWhile isDigitC = ds := by
    rw [takeWhile_append_of_all _ _ _ hds, hrtw, List.append_nil]
  have hddw : (ds ++ rest).dropWhile isDigitC = rest := by
    rw [dropWhile_append_of_all _ _ _ hds, hrdw]
  rcases hsgn with rfl | rfl | rfl
  · cases ds with
    | nil =>
      cases rest with
      | nil =>
        unfold strtoul10
        simp only [List.nil_append, List.append_nil] at hdw0 ⊢
        simp [hdw0]
      | cons c t =>
        have hq := hmax rfl rfl c t rfl
        unfold strtoul10
        simp only [List.nil_append] at hdw0 ⊢
        simp [hdw0, List.dropWhile_cons, hq.1, hq.2.1, hq.2.2, List.takeWhile_cons,
          hrest c t rfl]
    | cons d dt =>
      have hd := hds d (by simp)
      obtain ⟨hsp, hm, hp⟩ := digit_char_facts d hd
      unfold strtoul10
      simp only [List.nil_append, List.cons_append] at hdw0 hdtw hddw ⊢
      simp [hdw0, List.dropWhile_cons, hsp, hm, hp, hdtw, hddw, strtoulVal]
  · have h1 : isCSpace '+' = false := rfl
    have h2 : (('+' : Char) == '-') = false := rfl
    have h3 : (('+' : Char) == '+') = true := rfl
    cases ds with
    | nil =>
      unfold strtoul10
      simp only [List.nil_append, List.cons_append, List.singleton_append] at hdw0 ⊢
      simp [hdw0, List.dropWhile_cons, h1, h2, h3, hrtw]
    | cons d dt =>
      unfold strtoul10
      simp only [List.nil_append, List.cons_append, List.singleton_append] at hdw0 hdtw hddw ⊢
      simp [hdw0, List.dropWhile_cons, h1, h2, h3, hdtw, hddw, strtoulVal]
  · have h1 : isCSpace '-' = false := rfl
    have h2 : (('-' : Char) == '-') = true := rfl
    cases ds with
    | nil =>
      unfold strtoul10
      simp only [List.nil_append, List.cons_append, List.singleton_append] at hdw0 ⊢
      simp [hdw0, List.dropWhile_cons, h1, h2, hrtw]
    | cons d dt =>
      unfold strtoul10
      simp only [List.nil_append, List.cons_append, List.singleton_append] at hdw0 hdtw hddw ⊢
      simp [hdw0, List.dropWhile_cons, h1, h2, hdtw, hddw, strtoulVal]

/-- C10 amended: the enqueued uid equals the strtoul base-10 reading of the
id.  Null and empty ids give 0; for any id decomposed as optional leading C
whitespace, one optional sign, a maximal (possibly empty) digit run, and a
remainder, the uid is 0 when the digit run is empty, when a nonempty
remainder follows it, or when the sign-wrapped, ULONG_MAX-clamped value
exceeds 2 to the 32 minus 1, and is that value otherwise.  In particular,
unlike the original claim, leading whitespace and a leading plus sign
before a pure numeral are accepted, as the concrete readings of abc, a bare
plus, space-5, minus-1, an over-32-bit numeral behind a plus, and trailing
junk behind a plus illustrate. -/
theorem parse_uid_amended :
    (parse_uid none = 0) ∧
    (parse_uid (some "") = 0) ∧
    (∀ s : String, ∀ ws sgn ds rest : List Char,
      s.data = ws ++ (sgn ++ (ds ++ rest)) →
      (∀ c ∈ ws, isCSpace c = true) →
      (sgn = [] ∨ sgn = ['+'] ∨ sgn = ['-']) →
      (∀ c ∈ ds, isDigitC c = true) →
      (∀ c t, rest = c :: t → isDigitC c = false) →
      (sgn = [] → ds = [] → ∀ c t, rest = c :: t →
        isCSpace c = false ∧ (c == '+') = false ∧ (c == '-') = false) →
      parse_uid (some s) =
        if ds = [] then 0
        else if rest ≠ [] then 0
        else if strtoulVal (sgn == ['-']) (digitsVal ds) > 2 ^ 32 - 1 then 0
        else strtoulVal (sgn == ['-']) (digitsVal ds)) ∧
    (parse_uid (some "abc") = 0) ∧
    (parse_uid (some "+") = 0) ∧
    (parse_uid (some " 5") = 5) ∧
    (parse_uid (some "-1") = 0) ∧
    (parse_uid (some "+4294967296") = 0) ∧
    (parse_uid (some "+5x") = 0) := by
  refine ⟨rfl, by decide, ?_, by decide, by decide, by decide, by decide, by decide, by decide⟩
  intro s ws sgn ds rest heq hws hsgn hds hrest hmax
  have hr := strtoul10_decomp ws sgn ds rest hws hsgn hds hrest hmax
  simp only [parse_uid]
  rw [heq]
  by_cases hdemp : ds = []
  · subst hdemp
    rw [if_pos rfl] at hr
    simp only [List.nil_append] at hr ⊢
    by_cases hnil : ws ++ (sgn ++ rest) = []
    · rw [if_pos hnil]
      simp
    · rw [if_neg hnil, hr]
      simp
  · have hnil : ws ++ (sgn ++ (ds ++ rest)) ≠ [] := by
      intro h
      rcases List.append_eq_nil.mp h with ⟨-, h2⟩
      rcases List.append_eq_nil.mp h2 with ⟨-, h3⟩
      exact hdemp (List.append_eq_nil.mp h3).1
    rw [if_neg hdemp] at hr
    rw [if_neg hnil, hr]
    simp [hdemp]

/-- C10 amended witness: the general clause applied to the whitespace-led
id space-5, whose uid is 5. -/
theorem parse_uid_amended_witness : parse_uid (some " 5") = 5 := by
  have h := parse_uid_amended.2.2.1 " 5" [' '] [] ['5'] []
    (by decide) (by decide) (by decide) (by decide) (fun c t h => nomatch h)
    (fun _ h => nomatch h)
  exact h.trans (by decide)

/-! ## C9: connect failure inside join -/

/-- On an already initialized handle, init_if_needed is a pure no-op. -/
theorem init_noop_of_service (env : VendorEnv) (b : Bridge) (g : Bool)
    (hs : b.service = true) : b.init_if_needed env g = ⟨0, b, g, []⟩ := by
  unfold Bridge.init_if_needed
  simp [hs]

/-- C9: when the vendor connect call inside join fails on an initialized
handle, join returns the vendor code, the session keeps the newly stored
channel, token and uid, only the connect vendor call happened (so no
shutdown), and every other field — including the audio-published flag — is
unchanged. -/
theorem join_connect_failure_state (env : VendorEnv) (b : Bridge) (g : Bool)
    (ch : String) (tok : Option String) (uid : Nat)
    (hs : b.service = true) (hch : ch ≠ "") (hcc : env.connect_rc ≠ 0) :
    b.join env g (some ch) tok uid =
      ⟨env.connect_rc,
       { b with active_channel := ch, active_token := tok.getD "", active_uid := toString uid, last_error := make_error_message "connect" env.connect_rc },
       g, [VendorCall.connect (tok.getD "") ch (toString uid)]⟩ := by
  unfold Bridge.join
  rw [init_noop_of_service env b g hs]
  simp [hch, hcc, Bridge.set_last_error]

/-- C9 witness: a concrete initialized bridge with a failing connect. -/
theorem join_connect_failure_state_witness :
    Bridge.join { connect_rc := -8 } { app_id := "a", service := true, connection := true } false (some "room") (some "t") 7 =
      ⟨-8,
       { app_id := "a", service := true, connection := true, active_channel := "room", active_token := "t", active_uid := "7", last_error := make_error_message "connect" (-8) },
       false, [VendorCall.connect "t" "room" "7"]⟩ := by
  have h := join_connect_failure_state { connect_rc := -8 } { app_id := "a", service := true, connection := true } false "room" (some "t") 7 rfl (by decide) (by decide)
  simpa using h

/-! ## C1: fallback init, degraded mode and the process latch -/

/-- C1: on a fresh handle, when the full-feature initialization attempt
fails with the not-ready class (std::abs of the code is 3) and the retry
with the audio processor disabled succeeds (and the remaining setup calls
succeed), init_if_needed returns success with the audio processor disabled
and the handle marked teardown-unsafe, the process-wide latch is set, and
every subsequent create call with valid arguments fails with -77 (the
process latch error) instead of returning a handle. -/
theorem degraded_fallback_latch (env : VendorEnv) (b : Bridge) (g : Bool)
    (hs : b.service = false) (ha : b.app_id ≠ "")
    (h1 : env.createService_ok = true)
    (h3 : env.init_full_rc.natAbs = 3)
    (h4 : env.init_fallback_rc = 0)
    (h5 : env.createConn_ok = true)
    (h6 : env.registerObserver_rc = 0)
    (h7 : env.getLocalUser_ok = true) :
    (b.init_if_needed env g).rc = 0 ∧
    (b.init_if_needed env g).b.audio_processor_enabled = false ∧
    (b.init_if_needed env g).b.teardown_unsafe = true ∧
    (b.init_if_needed env g).g = true ∧
    ∀ a : String, heaven_agora_create (some a) true (b.init_if_needed env g).g = (-77, none) := by
  have hnz : env.init_full_rc ≠ 0 := by
    intro h
    rw [h] at h3
    simp at h3
  have hinit : (b.init_if_needed env g).rc = 0 ∧
      (b.init_if_needed env g).b.audio_processor_enabled = false ∧
      (b.init_if_needed env g).b.teardown_unsafe = true ∧
      (b.init_if_needed env g).g = true := by
    unfold Bridge.init_if_needed init_attempts
    simp [hs, ha, h1, hnz, h3, h4, h5, h6, h7, Bridge.clear_last_error]
  refine ⟨hinit.1, hinit.2.1, hinit.2.2.1, hinit.2.2.2, ?_⟩
  intro a
  rw [hinit.2.2.2]
  rfl

/-- C1 witness: concrete not-ready first attempt, successful retry, and a
refused second create. -/
theorem degraded_fallback_latch_witness :
    (Bridge.init_if_needed { init_full_rc := -3 } { app_id := "app" } false).rc = 0 ∧
    (Bridge.init_if_needed { init_full_rc := -3 } { app_id := "app" } false).b.audio_processor_enabled = false ∧
    (Bridge.init_if_needed { init_full_rc := -3 } { app_id := "app" } false).b.teardown_unsafe = true ∧
    (Bridge.init_if_needed { init_full_rc := -3 } { app_id := "app" } false).g = true ∧
    heaven_agora_create (some "again") true (Bridge.init_if_needed { init_full_rc := -3 } { app_id := "app" } false).g = (-77, none) := by
  have h := degraded_fallback_latch { init_full_rc := -3 } { app_id := "app" } false rfl (by decide) rfl (by decide) rfl rfl rfl rfl
  exact ⟨h.1, h.2.1, h.2.2.1, h.2.2.2.1, h.2.2.2.2 "again"⟩

/-! ## C6: repeated join publishes once -/

/-- Full-feature initialization success: the exact resulting state and
vendor trace. -/
theorem init_full_ok (env : VendorEnv) (b : Bridge) (g : Bool)
    (hs : b.service = false) (ha : b.app_id ≠ "")
    (e1 : env.createService_ok = true) (e2 : env.init_full_rc = 0)
    (e3 : env.createConn_ok = true) (e4 : env.registerObserver_rc = 0)
    (e5 : env.getLocalUser_ok = true) (e6 : env.createTrack_ok = true)
    (e7 : env.setEnabled_rc = 0) :
    b.init_if_needed env g =
      ⟨0, { b with service := true, connection := true, local_user := true, local_audio_track := true, last_error := "", audio_processor_enabled := true, audio_device_enabled := true, teardown_unsafe := false }, g,
       [VendorCall.createAgoraService, VendorCall.svcInit true, VendorCall.createRtcConnection, VendorCall.registerObserver, VendorCall.getLocalUser, VendorCall.setUserRole, VendorCall.createLocalAudioTrack, VendorCall.trackSetEnabled b.mic_enabled]⟩ := by
  unfold Bridge.init_if_needed init_attempts
  simp [hs, ha, e1, e2, e3, e4, e5, e6, e7, Bridge.clear_last_error]

/-- A join on an initialized handle whose audio is already published never
performs a publishAudio vendor call. -/
theorem join_no_republish (env : VendorEnv) (b : Bridge) (g : Bool)
    (ch tok : Option String) (uid : Nat)
    (hs : b.service = true) (hp : b.audio_published = true) :
    countPub (b.join env g ch tok uid).tr = 0 := by
  unfold Bridge.join
  cases ch with
  | none => simp [countPub]
  | some c =>
    by_cases hc : c = ""
    · simp [hc, countPub]
    · rw [init_noop_of_service env b g hs]
      by_cases hcc : env.connect_rc ≠ 0
      · simp [hc, hcc, countPub]
      · simp [hc, hcc, hp, countPub]

/-- C6: a successful full-feature join on a fresh handle performs exactly
one publishAudio vendor call, and a second join on the same handle — under
any vendor environment — performs none, so the publish count across the
repeated joins is one. -/
theorem join_publish_once (env env2 : VendorEnv) (b : Bridge) (g : Bool)
    (ch : String) (tok : Option String) (uid : Nat)
    (ch2 tok2 : Option String) (uid2 : Nat)
    (hs : b.service = false) (ha : b.app_id ≠ "") (hpub : b.audio_published = false)
    (e1 : env.createService_ok = true) (e2 : env.init_full_rc = 0)
    (e3 : env.createConn_ok = true) (e4 : env.registerObserver_rc = 0)
    (e5 : env.getLocalUser_ok = true) (e6 : env.createTrack_ok = true)
    (e7 : env.setEnabled_rc = 0) (e8 : env.connect_rc = 0) (e9 : env.publish_rc = 0)
    (hch : ch ≠ "") :
    (b.join env g (some ch) tok uid).rc = 0 ∧
    (b.join env g (some ch) tok uid).b.audio_processor_enabled = true ∧
    countPub (b.join env g (some ch) tok uid).tr = 1 ∧
    countPub ((b.join env g (some ch) tok uid).b.join env2 (b.join env g (some ch) tok uid).g ch2 tok2 uid2).tr = 0 := by
  have hini := init_full_ok env b g hs ha e1 e2 e3 e4 e5 e6 e7
  have h1 : (b.join env g (some ch) tok uid).b.service = true := by
    unfold Bridge.join
    rw [hini]
    simp [hch, e8, e9, hpub, Bridge.clear_last_error]
  have h2 : (b.join env g (some ch) tok uid).b.audio_published = true := by
    unfold Bridge.join
    rw [hini]
    simp [hch, e8, e9, hpub, Bridge.clear_last_error]
  refine ⟨?_, ?_, ?_, ?_⟩
  · unfold Bridge.join
    rw [hini]
    simp [hch, e8, e9, hpub, Bridge.clear_last_error]
  · unfold Bridge.join
    rw [hini]
    simp [hch, e8, e9, hpub, Bridge.clear_last_error]
  · unfold Bridge.join
    rw [hini]
    simp [hch, e8, e9, hpub, Bridge.clear_last_error, countPub]
  · exact join_no_republish env2 _ _ ch2 tok2 uid2 h1 h2

/-- C6 witness: two concrete joins with an all-success vendor environment. -/
theorem join_publish_once_witness :
    (Bridge.join {} { app_id := "app" } false (some "room") (some "t") 7).rc = 0 ∧
    (Bridge.join {} { app_id := "app" } false (some "room") (some "t") 7).b.audio_processor_enabled = true ∧
    countPub (Bridge.join {} { app_id := "app" } false (some "room") (some "t") 7).tr = 1 ∧
    countPub (Bridge.join {} (Bridge.join {} { app_id := "app" } false (some "room") (some "t") 7).b (Bridge.join {} { app_id := "app" } false (some "room") (some "t") 7).g (some "room") (some "t2") 7).tr = 0 := by
  exact join_publish_once {} {} { app_id := "app" } false "room" (some "t") 7 (some "room") (some "t2") 7 rfl (by decide) rfl rfl rfl rfl rfl rfl rfl rfl rfl rfl (by decide)


/-! ## C4: last_error discipline -/

/-- Every failing path of init_if_needed stores a nonempty diagnostic. -/
theorem init_rc_last_error (env : VendorEnv) (b : Bridge) (g : Bool) :
    (b.init_if_needed env g).rc ≠ 0 → (b.init_if_needed env g).b.last_error ≠ "" := by
  intro hrc
  by_cases hs : b.service
  · rw [init_noop_of_service env b g hs] at hrc
    simp at hrc
  · by_cases ha : b.app_id = ""
    · unfold Bridge.init_if_needed
      simp [hs, ha, Bridge.set_last_error]
    · by_cases hcs : env.createService_ok = false
      · unfold Bridge.init_if_needed
        simp [hs, ha, hcs, Bridge.set_last_error]
      · by_cases hfb : env.init_full_rc ≠ 0 ∧ env.init_full_rc.natAbs = 3
        · by_cases hfr : env.init_fallback_rc = 0
          · by_cases hcc : env.createConn_ok = false
            · unfold Bridge.init_if_needed init_attempts
              simp [hs, ha, hcs, hfb, hfr, hcc, Bridge.set_last_error, shutdown_last_error]
            · by_cases hro : env.registerObserver_rc ≠ 0
              · unfold Bridge.init_if_needed init_attempts
                simp [hs, ha, hcs, hfb, hfr, hcc, hro, Bridge.set_last_error, shutdown_last_error]
                exact make_error_message_ne _ _ (by decide)
              · by_cases hlu : env.getLocalUser_ok = false
                · unfold Bridge.init_if_needed init_attempts
                  simp [hs, ha, hcs, hfb, hfr, hcc, hro, hlu, Bridge.set_last_error, shutdown_last_error]
                · exfalso
                  apply hrc
                  unfold Bridge.init_if_needed init_attempts
                  simp [hs, ha, hcs, hfb, hfr, hcc, hro, hlu, Bridge.clear_last_error]
          · unfold Bridge.init_if_needed init_attempts
            simp [hs, ha, hcs, hfb, hfr, Bridge.set_last_error]
            exact init_fail_message_ne _ _
        · by_cases hr0 : env.init_full_rc = 0
          · by_cases hcc : env.createConn_ok = false
            · unfold Bridge.init_if_needed init_attempts
              simp [hs, ha, hcs, hfb, hr0, hcc, Bridge.set_last_error, shutdown_last_error]
            · by_cases hro : env.registerObserver_rc ≠ 0
              · unfold Bridge.init_if_needed init_attempts
                simp [hs, ha, hcs, hfb, hr0, hcc, hro, Bridge.set_last_error, shutdown_last_error]
                exact make_error_message_ne _ _ (by decide)
              · by_cases hlu : env.getLocalUser_ok = false
                · unfold Bridge.init_if_needed init_attempts
                  simp [hs, ha, hcs, hfb, hr0, hcc, hro, hlu, Bridge.set_last_error, shutdown_last_error]
                · by_cases htr : env.createTrack_ok = false
                  · unfold Bridge.init_if_needed init_attempts
                    simp [hs, ha, hcs, hfb, hr0, hcc, hro, hlu, htr, Bridge.set_last_error, shutdown_last_error]
                  · by_cases hse : env.setEnabled_rc ≠ 0
                    · unfold Bridge.init_if_needed init_attempts
                      simp [hs, ha, hcs, hfb, hr0, hcc, hro, hlu, htr, hse, Bridge.set_last_error, shutdown_last_error]
                      exact make_error_message_ne _ _ (by decide)
                    · exfalso
                      apply hrc
                      unfold Bridge.init_if_needed init_attempts
                      simp [hs, ha, hcs, hfb, hr0, hcc, hro, hlu, htr, hse, Bridge.clear_last_error]
          · have h3 : ¬ env.init_full_rc.natAbs = 3 := fun h => hfb ⟨hr0, h⟩
            unfold Bridge.init_if_needed init_attempts
            simp [hs, ha, hcs, hr0, h3, Bridge.set_last_error]
            exact init_fail_message_ne _ _

/-- join clears the diagnostic exactly on success and stores a nonempty one
on every failure. -/
theorem join_last_error_spec (env : VendorEnv) (b : Bridge) (g : Bool)
    (ch tok : Option String) (uid : Nat) :
    ((b.join env g ch tok uid).rc = 0 → (b.join env g ch tok uid).b.last_error = "") ∧
    ((b.join env g ch tok uid).rc ≠ 0 → (b.join env g ch tok uid).b.last_error ≠ "") := by
  cases ch with
  | none =>
    constructor
    · intro h0
      simp [Bridge.join] at h0
    · intro _
      simp [Bridge.join, Bridge.set_last_error]
  | some c =>
    by_cases hc : c = ""
    · constructor
      · intro h0
        simp [Bridge.join, hc] at h0
      · intro _
        simp [Bridge.join, hc, Bridge.set_last_error]
    · by_cases hrc : (b.init_if_needed env g).rc ≠ 0
      · have hj : b.join env g (some c) tok uid = b.init_if_needed env g := by
          unfold Bridge.join
          simp [hc, hrc]
        rw [hj]
        constructor
        · intro h0
          exact absurd h0 hrc
        · intro _
          exact init_rc_last_error env b g hrc
      · push_neg at hrc
        by_cases hcc : env.connect_rc ≠ 0
        · constructor
          · intro h0
            unfold Bridge.join at h0
            simp [hc, hrc, hcc] at h0
          · intro _
            unfold Bridge.join
            simp [hc, hrc, hcc, Bridge.set_last_error]
            exact make_error_message_ne _ _ (by decide)
        · by_cases hcond : ((b.init_if_needed env g).b.local_user && (b.init_if_needed env g).b.local_audio_track && !(b.init_if_needed env g).b.audio_published) = true
          · by_cases hp : env.publish_rc ≠ 0
            · constructor
              · intro h0
                unfold Bridge.join at h0
                simp [hc, hrc, hcc, hcond, hp] at h0
              · intro _
                unfold Bridge.join
                simp [hc, hrc, hcc, hcond, hp, Bridge.set_last_error, shutdown_last_error]
                exact make_error_message_ne _ _ (by decide)
            · constructor
              · intro _
                unfold Bridge.join
                simp [hc, hrc, hcc, hcond, hp, Bridge.clear_last_error]
              · intro h0
                unfold Bridge.join at h0
                simp [hc, hrc, hcc, hcond, hp] at h0
          · constructor
            · intro _
              unfold Bridge.join
              simp [hc, hrc, hcc, hcond, Bridge.clear_last_error]
            · intro h0
              unfold Bridge.join at h0
              simp [hc, hrc, hcc, hcond] at h0

/-- C4 counterexample: set_mic_enabled on a degraded handle returns status 0
yet leaves a nonempty informational note in last_error, so last_error is not
empty after this successful operation. -/
theorem last_error_success_nonempty_cx :
    (Bridge.set_mic_enabled {} { app_id := "a", audio_processor_enabled := false } true).rc = 0 ∧
    (Bridge.set_mic_enabled {} { app_id := "a", audio_processor_enabled := false } true).b.last_error ≠ "" := by
  constructor
  · rfl
  · decide

/-- C4 amended: for join, leave, set_mic_enabled and set_region_preference,
last_error is empty right after a status 0 return and nonempty right after a
nonzero status — except set_mic_enabled in degraded mode, which returns 0
while recording a nonempty informational note; poll_event never touches the
stored diagnostic. -/
theorem last_error_amended (env : VendorEnv) (b : Bridge) (g : Bool)
    (channel token : Option String) (uid : Nat) (e ok : Bool) :
    ((b.join env g channel token uid).rc = 0 → (b.join env g channel token uid).b.last_error = "") ∧
    ((b.join env g channel token uid).rc ≠ 0 → (b.join env g channel token uid).b.last_error ≠ "") ∧
    (b.leave.rc = 0 → b.leave.b.last_error = "") ∧
    (b.leave.rc ≠ 0 → b.leave.b.last_error ≠ "") ∧
    ((b.set_mic_enabled env e).rc ≠ 0 → (b.set_mic_enabled env e).b.last_error ≠ "") ∧
    (b.audio_processor_enabled = true → (b.set_mic_enabled env e).rc = 0 →
      (b.set_mic_enabled env e).b.last_error = "") ∧
    (b.audio_processor_enabled = false →
      (b.set_mic_enabled env e).rc = 0 ∧ (b.set_mic_enabled env e).b.last_error ≠ "") ∧
    ((b.set_area_cn_only e).rc = 0 → (b.set_area_cn_only e).b.last_error = "") ∧
    ((b.set_area_cn_only e).rc ≠ 0 → (b.set_area_cn_only e).b.last_error ≠ "") ∧
    ((b.pop_event ok).b.last_error = b.last_error) := by
  refine ⟨(join_last_error_spec env b g channel token uid).1,
          (join_last_error_spec env b g channel token uid).2, ?_, ?_, ?_, ?_, ?_, ?_, ?_, ?_⟩
  · intro h0
    unfold Bridge.leave at h0 ⊢
    by_cases hconn : b.connection = false
    · simp [hconn] at h0
    · by_cases ht : b.teardown_unsafe <;>
        simp [hconn, ht, Bridge.clear_last_error]
  · intro hne
    unfold Bridge.leave at hne ⊢
    by_cases hconn : b.connection = false
    · simp [hconn, Bridge.set_last_error]
    · by_cases ht : b.teardown_unsafe <;> simp [hconn, ht] at hne
  · intro hne
    unfold Bridge.set_mic_enabled at hne ⊢
    by_cases hap : b.audio_processor_enabled = false
    · simp [hap] at hne
    · by_cases htr : b.local_audio_track = false
      · simp [hap, htr, Bridge.set_last_error]
      · by_cases hse : env.setEnabled_rc ≠ 0
        · simp [hap, htr, hse, Bridge.set_last_error]
          exact make_error_message_ne _ _ (by decide)
        · simp [hap, htr, hse] at hne
  · intro hap h0
    unfold Bridge.set_mic_enabled at h0 ⊢
    by_cases htr : b.local_audio_track = false
    · simp [hap, htr] at h0
    · by_cases hse : env.setEnabled_rc ≠ 0
      · simp [hap, htr, hse] at h0
      · simp [hap, htr, hse, Bridge.clear_last_error]
  · intro hap
    unfold Bridge.set_mic_enabled
    simp [hap, Bridge.set_last_error]
  · intro h0
    unfold Bridge.set_area_cn_only at h0 ⊢
    by_cases hs : b.service
    · simp [hs] at h0
    · simp [hs, Bridge.clear_last_error]
  · intro hne
    unfold Bridge.set_area_cn_only at hne ⊢
    by_cases hs : b.service
    · simp [hs, Bridge.set_last_error]
    · simp [hs] at hne
  · unfold Bridge.pop_event
    by_cases hok : ok = false
    · simp [hok]
    · cases he : b.events <;> simp [hok, he]

/-- C4 amended witness: a successful concrete join clears the diagnostic and
a successful concrete leave clears it too. -/
theorem last_error_amended_witness :
    (Bridge.join {} { app_id := "app" } false (some "room") (some "t") 7).b.last_error = "" ∧
    (Bridge.leave { app_id := "a", connection := true }).b.last_error = "" := by
  constructor
  · exact (last_error_amended {} { app_id := "app" } false (some "room") (some "t") 7 true true).1 rfl
  · exact (last_error_amended {} { app_id := "a", connection := true } false none none 0 true true).2.2.1 rfl
